import Mathlib

/-!
Shallow embedding of `backend/src/usersAPI/main.go` (Trill users API).

The file models the persisted `User` entity, the gorm-backed lookup and
save operations, and the two lambda operations `read` (GET) and `update`
(PUT) together with their dispatcher `handler`.  External collaborators
(the MySQL connection, the Cognito client) are modelled as fields of a
`World` record; Go runtime panics are modelled as an explicit outcome.
-/

namespace UsersAPI

/-- Persisted entity, mirroring the Go struct `User` (main.go).
Timestamps are modelled as natural numbers with 0 standing for the Go
zero time.  Note: in the source the field `DeletedAt` has type
`time.Time` (the `gorm.Model` embed is commented out), NOT the special
type `gorm.DeletedAt`, so gorm v2 does not treat the column as a
soft-delete marker and adds no `deleted_at IS NULL` clause to queries. -/
structure User where
  createdAt : Nat
  updatedAt : Nat
  deletedAt : Nat
  username : String
  bio : String
  profilePicture : String
  deriving DecidableEq

/-- One Cognito user attribute: the dereferenced `*v.Name` / `*v.Value`
pair from `cogInfo.UserAttributes`. -/
structure Attr where
  name : String
  value : String
  deriving DecidableEq

/-- A value stored in the authorizer claim map
`req.RequestContext.Authorizer.Lambda`; the Go code performs the type
assertion `.(string)` on it, which succeeds only for `str`. -/
inductive LambdaVal where
  | str (s : String)
  | nonString
  deriving DecidableEq

/-- A PUT request body as seen through `json.Unmarshal` into a `*User`.
`invalid` stands for every byte sequence on which `json.Unmarshal`
returns an error (not JSON, or JSON that is not an object, etc.);
`patch p` stands for a JSON object whose members matching the `User`
field names (Go matches them case-insensitively, so both "username" and
"Username" hit `Username`) carry the given values; members matching no
field are ignored by `json.Unmarshal`. -/
structure UserPatch where
  createdAt : Option Nat
  updatedAt : Option Nat
  deletedAt : Option Nat
  username : Option String
  bio : Option String
  profilePicture : Option String
  deriving DecidableEq

inductive BodyJson where
  | invalid
  | patch (p : UserPatch)
  deriving DecidableEq

/-- The inbound request: HTTP method, headers, authorizer claims and the
body (the body is pre-classified as `BodyJson`, see above). -/
structure Request where
  method : String
  headers : List (String × String)
  lambda : List (String × LambdaVal)
  body : BodyJson
  deriving DecidableEq

/-- Go map access `req.Headers[k]`: the zero value "" when absent. -/
def headerGet (hs : List (String × String)) (k : String) : String :=
  match hs.find? (fun p => p.1 == k) with
  | some p => p.2
  | none => ""

/-- The type assertion `req.RequestContext.Authorizer.Lambda["username"].(string)`:
`some s` iff the key is present and holds a string. -/
def usernameClaim (req : Request) : Option String :=
  match req.lambda.find? (fun p => p.1 == "username") with
  | some (_, LambdaVal.str s) => some s
  | _ => none

/-- Splitting a character list around every occurrence of `sep`; the
empty input yields one empty field, as Go `strings.Split("", " ")` does. -/
def splitFields (sep : Char) : List Char → List (List Char)
  | [] => [[]]
  | c :: rest =>
    if c = sep then [] :: splitFields sep rest
    else
      match splitFields sep rest with
      | [] => [[c]]
      | f :: fs => (c :: f) :: fs

/-- Go `strings.Split(s, " ")`: the separator here is the single space
character, so splitting around each occurrence of the separator string
is splitting around each space character. -/
def goSplit (s : String) (sep : Char) : List String :=
  (splitFields sep s.toList).map List.asString

/-- Bearer-token extraction
`strings.Split(req.Headers["authorization"], " ")[1]`.
`none` means index 1 does not exist, in which case the Go expression
panics with an index-out-of-range runtime error. -/
def tokenOf (req : Request) : Option String :=
  (goSplit (headerGet req.headers "authorization") ' ').get? 1

/-- One step of the attribute loop in `read`: the loop keeps assigning,
so the last matching attribute wins, and the `else if` makes the two
branches exclusive. -/
def cogStep (acc : String × String) (a : Attr) : String × String :=
  if a.name == "email" then (a.value, acc.2)
  else if a.name == "nickname" then (acc.1, a.value)
  else acc

/-- The `for _, v := range cogInfo.UserAttributes` loop of `read`,
starting from `email := ""; nickname := ""`. -/
def extractEmailNickname (attrs : List Attr) : String × String :=
  attrs.foldl cogStep ("", "")

/-- Error of the gorm query `db.Where("username = ?", username).First(&user)`:
either `gorm.ErrRecordNotFound` or any other query failure. -/
inductive QueryError where
  | recordNotFound
  | other (msg : String)
  deriving DecidableEq

def QueryError.isErr : Except QueryError User → Bool
  | Except.error _ => true
  | Except.ok _ => false

/-- The environment of one invocation: the state of the MySQL store and
the behaviour of the Cognito collaborator. -/
structure World where
  /-- `some e` iff `gorm.Open` fails with underlying message `e`. -/
  connectErr : Option String
  /-- The rows of the users table. -/
  table : List User
  /-- `some e` iff `config.LoadDefaultConfig` in `initClient` fails. -/
  initClientErr : Option String
  /-- Result of `cognitoClient.Client.GetUser` for a given access token. -/
  getUser : String → Except String (List Attr)
  /-- `some e` iff the `First` query fails with an error other than
  record-not-found (e.g. the connection drops mid-query). -/
  queryErr : Option String
  /-- `some e` iff `db.Save` fails with message `e`. -/
  saveErr : Option String

/-- `connectDB` wraps the gorm error:
`fmt.Errorf("error: failed to connect to AWS RDS: %w", err)`. -/
def connectFailMsg (e : String) : String :=
  "error: failed to connect to AWS RDS: " ++ e

/-- `db.Where("username = ?", username).First(&user)` restricted to the
table contents: gorm `First` returns the first matching row ordered by
primary key; the query filters on `username` only — the `DeletedAt`
column is a plain `time.Time` field, so gorm v2 adds no soft-delete
clause (see `User`). -/
def findByUsername (table : List User) (uname : String) : Option User :=
  table.find? (fun u => u.username == uname)

/-- The full `First` call including possible query failure: any
`result.Error` is either record-not-found or another failure. -/
def firstByUsername (w : World) (uname : String) : Except QueryError User :=
  match w.queryErr with
  | some e => Except.error (QueryError.other e)
  | none =>
    match findByUsername w.table uname with
    | some u => Except.ok u
    | none => Except.error QueryError.recordNotFound

/-- `json.Unmarshal(body, &user)` onto the already-loaded record:
members present in the JSON object overwrite the matching struct field,
members absent leave the field as loaded. -/
def applyPatch (u : User) (p : UserPatch) : User :=
  { createdAt := p.createdAt.getD u.createdAt
    updatedAt := p.updatedAt.getD u.updatedAt
    deletedAt := p.deletedAt.getD u.deletedAt
    username := p.username.getD u.username
    bio := p.bio.getD u.bio
    profilePicture := p.profilePicture.getD u.profilePicture }

/-- `db.Save(&user)`: gorm v2 `Save` with a non-zero primary key updates
the row with that key, and creates the row when the update matches
nothing (upsert by primary key).  gorm maintenance of the `UpdatedAt`
timestamp column is outside the scope of the claims and not modelled. -/
def saveTable (table : List User) (u : User) : List User :=
  if table.any (fun r => r.username == u.username) then
    table.map (fun r => if r.username == u.username then u else r)
  else
    table ++ [u]

/-- A response body: plain text, or the JSON object produced by
`json.Marshal` on the `map[string]interface{}` of `read`.  The map
holds only string values, so `json.Marshal` cannot fail there, and
`json.HTMLEscape` changes only the byte-level escaping of the string
values, never the JSON object they denote; the body is therefore
modelled at the JSON-object level, as the key/value list in the sorted
key order Go emits for maps. -/
inductive Body where
  | text (s : String)
  | jsonObj (kvs : List (String × String))
  deriving DecidableEq

structure Response where
  statusCode : Nat
  body : Body
  headers : List (String × String)
  deriving DecidableEq

/-- Outcome of one operation: a returned response, or a Go runtime
panic (the only panic site in this code is the `[1]` indexing in the
bearer-token extraction). -/
inductive Outcome where
  | resp (r : Response)
  | panics
  deriving DecidableEq

def Outcome.status : Outcome → Option Nat
  | Outcome.resp r => some r.statusCode
  | Outcome.panics => none

/-- Result of one invocation: the outcome, the Go `error` value returned
next to the response (`none` = nil), the table after the invocation,
and whether the store / the Cognito service were contacted. -/
structure OpResult where
  outcome : Outcome
  goErr : Option String
  table : List User
  storeContacted : Bool
  cognitoContacted : Bool
  deriving DecidableEq

/-- GET: the `read` function of main.go, step for step. -/
def read (w : World) (req : Request) : OpResult :=
  match w.connectErr with
  | some e =>
    ⟨Outcome.resp ⟨500, Body.text (connectFailMsg e), []⟩, none, w.table, true, false⟩
  | none =>
    match usernameClaim req with
    | none =>
      ⟨Outcome.resp ⟨500, Body.text "failed to parse username", []⟩, none, w.table, true, false⟩
    | some username =>
      match w.initClientErr with
      | some e =>
        ⟨Outcome.resp ⟨500, Body.text e, []⟩, none, w.table, true, false⟩
      | none =>
        match tokenOf req with
        | none => ⟨Outcome.panics, none, w.table, true, false⟩
        | some authToken =>
          match w.getUser authToken with
          | Except.error e =>
            ⟨Outcome.resp ⟨500, Body.text e, []⟩, none, w.table, true, true⟩
          | Except.ok attrs =>
            if (extractEmailNickname attrs).1 = "" then
              ⟨Outcome.resp ⟨500, Body.text "could not find user email", []⟩, none, w.table, true, true⟩
            else
              match firstByUsername w username with
              | Except.error _ =>
                ⟨Outcome.resp ⟨404, Body.text "user not found", []⟩, none, w.table, true, true⟩
              | Except.ok user =>
                ⟨Outcome.resp
                  ⟨200,
                   Body.jsonObj
                     [("bio", user.bio), ("email", (extractEmailNickname attrs).1),
                      ("nickname", (extractEmailNickname attrs).2),
                      ("profilePicture", user.profilePicture), ("username", username)],
                   [("Content-Type", "application/json")]⟩,
                 none, w.table, true, true⟩

/-- PUT: the `update` function of main.go, step for step.  Note that on
`connectDB` failure this function returns the non-nil Go error next to
the 500 response (`return Response{...}, err`), unlike every other
return in the file. -/
def update (w : World) (req : Request) : OpResult :=
  match w.connectErr with
  | some e =>
    ⟨Outcome.resp ⟨500, Body.text (connectFailMsg e), []⟩, some (connectFailMsg e), w.table, true, false⟩
  | none =>
    match usernameClaim req with
    | none =>
      ⟨Outcome.resp ⟨500, Body.text "failed to parse username", []⟩, none, w.table, true, false⟩
    | some username =>
      match firstByUsername w username with
      | Except.error _ =>
        ⟨Outcome.resp ⟨404, Body.text "user not found", []⟩, none, w.table, true, false⟩
      | Except.ok user =>
        match req.body with
        | BodyJson.invalid =>
          ⟨Outcome.resp ⟨400, Body.text "invalid request body", []⟩, none, w.table, true, false⟩
        | BodyJson.patch p =>
          let patched := applyPatch user p
          match w.saveErr with
          | some e =>
            ⟨Outcome.resp ⟨500, Body.text e, []⟩, none, w.table, true, false⟩
          | none =>
            ⟨Outcome.resp ⟨200, Body.text "user updated successfully", []⟩, none,
             saveTable w.table patched, true, false⟩

/-- The lambda `handler`: dispatch on the HTTP method (a Go switch on the
method string is a chain of equality tests). -/
def handler (w : World) (req : Request) : OpResult :=
  if req.method = "GET" then read w req
  else if req.method = "PUT" then update w req
  else
    ⟨Outcome.resp ⟨405, Body.text ("HTTP method '" ++ req.method ++ "' not allowed"), []⟩,
     none, w.table, false, false⟩

/-! ## Concrete fixtures for evaluations and witnesses -/

/-- A live stored record. -/
def aliceRec : User := ⟨1, 2, 0, "alice", "old bio", "pic"⟩

/-- A soft-deleted record: non-null (non-zero) `deletedAt`. -/
def deletedRec : User := ⟨1, 2, 77, "alice", "old bio", "pic"⟩

/-- Healthy collaborators, table holding only `aliceRec`. -/
def okWorld : World :=
  ⟨none, [aliceRec], none,
   fun _ => Except.ok [⟨"email", "alice@example.com"⟩, ⟨"nickname", "Al"⟩],
   none, none⟩

/-- Healthy collaborators, table holding only the soft-deleted record. -/
def deletedWorld : World :=
  ⟨none, [deletedRec], none,
   fun _ => Except.ok [⟨"email", "alice@example.com"⟩, ⟨"nickname", "Al"⟩],
   none, none⟩

/-- Healthy collaborators, `aliceRec` present, but the `First` query fails
with an error that is not record-not-found. -/
def failQueryWorld : World :=
  ⟨none, [aliceRec], none,
   fun _ => Except.ok [⟨"email", "alice@example.com"⟩, ⟨"nickname", "Al"⟩],
   some "connection lost mid-query", none⟩

/-- A world whose database connection fails. -/
def badConnWorld : World :=
  ⟨some "dial tcp refused", [aliceRec], none, fun _ => Except.ok [], none, none⟩

/-- A request asserting username alice. -/
def mkReq (m : String) (hs : List (String × String)) (b : BodyJson) : Request :=
  ⟨m, hs, [("username", LambdaVal.str "alice")], b⟩

/-- A well-formed GET request with a two-field authorization header. -/
def authReq : Request :=
  mkReq "GET" [("authorization", "Bearer tok")] BodyJson.invalid

/-! ## Claims -/

/-- C1: the claim states that update never changes the primary key of the
loaded record, whatever the request body.  Evaluation of the code at the
failing input (caller alice, body with a username member set to mallory):
the unmarshal step rewrites the key of the loaded record to mallory, the
save step then persists a row keyed mallory next to the untouched alice
row, and the operation still answers 200. -/
theorem C1_update_overwrites_username :
    (applyPatch aliceRec ⟨none, none, none, some "mallory", none, none⟩).username ≠ aliceRec.username
    ∧ (update okWorld
        (mkReq "PUT" [] (BodyJson.patch ⟨none, none, none, some "mallory", none, none⟩))).table.map
        (fun u => u.username) = ["alice", "mallory"]
    ∧ (update okWorld
        (mkReq "PUT" [] (BodyJson.patch ⟨none, none, none, some "mallory", none, none⟩))).outcome.status
        = some 200 :=
  ⟨by decide, rfl, rfl⟩

/-- C2: the claim states that a GET with a malformed authorization header
(no space) is answered with a client error.  Evaluation of the code at the
failing input: the header "sometoken" has no space, the split yields a
single field, and the index access `[1]` panics (index out of range)
instead of producing any response. -/
theorem C2_malformed_header_panics :
    (read okWorld (mkReq "GET" [("authorization", "sometoken")] BodyJson.invalid)).outcome
      = Outcome.panics := rfl

/-- C3 counterexample: the only stored record is soft deleted (deletedAt = 77),
yet both operations still find it: read answers 200 and update answers 200,
not the 404 the claim requires — the lookup never filters on deletedAt. -/
theorem C3_soft_deleted_found :
    deletedRec.deletedAt ≠ 0
    ∧ (read deletedWorld authReq).outcome.status = some 200
    ∧ (update deletedWorld
        (mkReq "PUT" [] (BodyJson.patch ⟨none, none, none, none, some "b2", none⟩))).outcome.status
        = some 200 :=
  ⟨by decide, rfl, rfl⟩

/-- C3 (amended): the lookup used by ReadProfile and UpdateProfile does NOT
exclude soft-deleted records — the DeletedAt column is a plain time.Time
field, so the query filters on username only.  A stored record with non-null
deletedAt is returned like a live one, and both operations proceed with it
instead of responding 404: read answers 200, update never answers 404. -/
theorem C3_soft_delete_not_excluded (w : World) (req : Request)
    (uname tok : String) (attrs : List Attr) (u : User)
    (hconn : w.connectErr = none) (huser : usernameClaim req = some uname)
    (hq : w.queryErr = none) (hfind : findByUsername w.table uname = some u)
    (hdel : u.deletedAt ≠ 0)
    (hinit : w.initClientErr = none) (htok : tokenOf req = some tok)
    (hcog : w.getUser tok = Except.ok attrs)
    (hemail : (extractEmailNickname attrs).1 ≠ "") :
    firstByUsername w uname = Except.ok u
    ∧ (update w req).outcome.status ≠ some 404
    ∧ (read w req).outcome.status = some 200 := by
  have hfb : firstByUsername w uname = Except.ok u := by
    simp only [firstByUsername, hq, hfind]
  refine ⟨hfb, ?_, ?_⟩
  · simp only [update, hconn, huser, hfb]
    cases hb : req.body with
    | invalid => simp [Outcome.status]
    | patch p =>
      cases hs : w.saveErr with
      | some e => simp [Outcome.status]
      | none => simp [Outcome.status]
  · simp [read, hconn, huser, hinit, htok, hcog, hemail, hfb, Outcome.status]

/-- C4 counterexample: the record for alice exists in the table and the
lookup query fails with an error that is not record-not-found, yet both
operations answer 404 (the code maps every result.Error of First to 404),
where the claim requires a 500 DependencyError. -/
theorem C4_query_failure_gives_404 :
    findByUsername failQueryWorld.table "alice" = some aliceRec
    ∧ failQueryWorld.queryErr = some "connection lost mid-query"
    ∧ (read failQueryWorld authReq).outcome.status = some 404
    ∧ (update failQueryWorld
        (mkReq "PUT" [] (BodyJson.patch ⟨none, none, none, none, some "b", none⟩))).outcome.status
        = some 404 :=
  ⟨rfl, rfl, rfl, rfl⟩

/-- C4 (amended): under a live connection and valid username claim (and, for
read, a well-formed header and provider attributes with a non-empty email),
the response status is 404 exactly when the lookup query returns an error —
whether record-not-found or any other query failure; a non-not-found query
failure is thus also reported as 404, not 500. -/
theorem C4_404_iff_lookup_errs (w : World) (req : Request)
    (uname tok : String) (attrs : List Attr)
    (hconn : w.connectErr = none) (huser : usernameClaim req = some uname)
    (hinit : w.initClientErr = none) (htok : tokenOf req = some tok)
    (hcog : w.getUser tok = Except.ok attrs)
    (hemail : (extractEmailNickname attrs).1 ≠ "") :
    ((update w req).outcome.status = some 404
        ↔ QueryError.isErr (firstByUsername w uname) = true)
    ∧ ((read w req).outcome.status = some 404
        ↔ QueryError.isErr (firstByUsername w uname) = true) := by
  constructor
  · cases hfb : firstByUsername w uname with
    | error e => simp [update, hconn, huser, hfb, QueryError.isErr, Outcome.status]
    | ok u =>
      simp only [update, hconn, huser, hfb, QueryError.isErr]
      cases hb : req.body with
      | invalid => simp [Outcome.status]
      | patch p =>
        cases hs : w.saveErr with
        | some e => simp [Outcome.status]
        | none => simp [Outcome.status]
  · cases hfb : firstByUsername w uname with
    | error e =>
      simp [read, hconn, huser, hinit, htok, hcog, hemail, hfb, QueryError.isErr, Outcome.status]
    | ok u =>
      simp [read, hconn, huser, hinit, htok, hcog, hemail, hfb, QueryError.isErr, Outcome.status]

/-- Witness for C3 (amended) at the soft-deleted fixture. -/
theorem C3_soft_delete_witness :
    firstByUsername deletedWorld "alice" = Except.ok deletedRec
    ∧ (update deletedWorld authReq).outcome.status ≠ some 404
    ∧ (read deletedWorld authReq).outcome.status = some 200 :=
  C3_soft_delete_not_excluded deletedWorld authReq "alice" "tok"
    [⟨"email", "alice@example.com"⟩, ⟨"nickname", "Al"⟩] deletedRec
    rfl rfl rfl rfl (by decide) rfl rfl rfl (by decide)

/-- Witness for C4 (amended) at the failing-query fixture. -/
theorem C4_404_iff_witness :
    ((update failQueryWorld authReq).outcome.status = some 404
        ↔ QueryError.isErr (firstByUsername failQueryWorld "alice") = true)
    ∧ ((read failQueryWorld authReq).outcome.status = some 404
        ↔ QueryError.isErr (firstByUsername failQueryWorld "alice") = true) :=
  C4_404_iff_lookup_errs failQueryWorld authReq "alice" "tok"
    [⟨"email", "alice@example.com"⟩, ⟨"nickname", "Al"⟩]
    rfl rfl rfl rfl rfl (by decide)

/-- C5: on the success path — live connection, valid username claim, Cognito
client built, well-formed authorization header, provider attributes with a
non-empty email, and a stored record found for the username — read answers
200 with a JSON object holding exactly the five keys bio, email, nickname,
profilePicture, username (sorted key order of the Go map marshal), where
bio and profilePicture come from the stored record, email and nickname from
the provider attributes, and the username key carries the asserted username,
which equals the stored record key. -/
theorem C5_read_success (w : World) (req : Request) (uname tok : String)
    (attrs : List Attr) (u : User)
    (hconn : w.connectErr = none) (huser : usernameClaim req = some uname)
    (hinit : w.initClientErr = none) (htok : tokenOf req = some tok)
    (hcog : w.getUser tok = Except.ok attrs)
    (hemail : (extractEmailNickname attrs).1 ≠ "")
    (hq : w.queryErr = none) (hfind : findByUsername w.table uname = some u) :
    (read w req).outcome =
      Outcome.resp
        ⟨200,
         Body.jsonObj
           [("bio", u.bio), ("email", (extractEmailNickname attrs).1),
            ("nickname", (extractEmailNickname attrs).2),
            ("profilePicture", u.profilePicture), ("username", uname)],
         [("Content-Type", "application/json")]⟩
    ∧ u.username = uname := by
  have hfb : firstByUsername w uname = Except.ok u := by
    simp only [firstByUsername, hq, hfind]
  constructor
  · simp [read, hconn, huser, hinit, htok, hcog, hemail, hfb]
  · have hp := List.find?_some (by simpa [findByUsername] using hfind)
    exact eq_of_beq hp

/-- Witness for C5 at the healthy fixture. -/
theorem C5_read_success_witness :
    (read okWorld authReq).outcome =
      Outcome.resp
        ⟨200,
         Body.jsonObj
           [("bio", aliceRec.bio),
            ("email",
              (extractEmailNickname
                [⟨"email", "alice@example.com"⟩, ⟨"nickname", "Al"⟩]).1),
            ("nickname",
              (extractEmailNickname
                [⟨"email", "alice@example.com"⟩, ⟨"nickname", "Al"⟩]).2),
            ("profilePicture", aliceRec.profilePicture), ("username", "alice")],
         [("Content-Type", "application/json")]⟩
    ∧ aliceRec.username = "alice" :=
  C5_read_success okWorld authReq "alice" "tok"
    [⟨"email", "alice@example.com"⟩, ⟨"nickname", "Al"⟩] aliceRec
    rfl rfl rfl rfl rfl (by decide) rfl rfl

/-- C6: with body patching only bio to "new bio", the persisted record is the
loaded record with only bio replaced (profilePicture untouched), the response
is 200, and in general the patch step leaves every field absent from the body
unchanged: for any patch, blanking one field makes that field of the patched
record equal the loaded value. -/
theorem C6_patch_frame (w : World) (req : Request) (uname : String)
    (u v : User) (p : UserPatch)
    (hconn : w.connectErr = none) (huser : usernameClaim req = some uname)
    (hq : w.queryErr = none) (hfind : findByUsername w.table uname = some u)
    (hbody : req.body = BodyJson.patch ⟨none, none, none, none, some "new bio", none⟩)
    (hsave : w.saveErr = none) :
    (update w req).table = saveTable w.table { u with bio := "new bio" }
    ∧ (update w req).outcome.status = some 200
    ∧ (applyPatch v { p with createdAt := none }).createdAt = v.createdAt
    ∧ (applyPatch v { p with updatedAt := none }).updatedAt = v.updatedAt
    ∧ (applyPatch v { p with deletedAt := none }).deletedAt = v.deletedAt
    ∧ (applyPatch v { p with username := none }).username = v.username
    ∧ (applyPatch v { p with bio := none }).bio = v.bio
    ∧ (applyPatch v { p with profilePicture := none }).profilePicture = v.profilePicture := by
  have hfb : firstByUsername w uname = Except.ok u := by
    simp only [firstByUsername, hq, hfind]
  refine ⟨?_, ?_, ?_, ?_, ?_, ?_, ?_, ?_⟩
  · simp [update, hconn, huser, hfb, hbody, hsave, applyPatch]
  · simp [update, hconn, huser, hfb, hbody, hsave, Outcome.status]
  all_goals simp [applyPatch]

/-- Witness for C6 at the healthy fixture. -/
theorem C6_patch_frame_witness :
    (update okWorld
        (mkReq "PUT" [] (BodyJson.patch ⟨none, none, none, none, some "new bio", none⟩))).table
      = saveTable okWorld.table { aliceRec with bio := "new bio" }
    ∧ (update okWorld
        (mkReq "PUT" [] (BodyJson.patch ⟨none, none, none, none, some "new bio", none⟩))).outcome.status
      = some 200
    ∧ (applyPatch deletedRec
        { (⟨some 9, some 9, some 9, some "x", some "y", some "z"⟩ : UserPatch) with
          createdAt := none }).createdAt = deletedRec.createdAt
    ∧ (applyPatch deletedRec
        { (⟨some 9, some 9, some 9, some "x", some "y", some "z"⟩ : UserPatch) with
          updatedAt := none }).updatedAt = deletedRec.updatedAt
    ∧ (applyPatch deletedRec
        { (⟨some 9, some 9, some 9, some "x", some "y", some "z"⟩ : UserPatch) with
          deletedAt := none }).deletedAt = deletedRec.deletedAt
    ∧ (applyPatch deletedRec
        { (⟨some 9, some 9, some 9, some "x", some "y", some "z"⟩ : UserPatch) with
          username := none }).username = deletedRec.username
    ∧ (applyPatch deletedRec
        { (⟨some 9, some 9, some 9, some "x", some "y", some "z"⟩ : UserPatch) with
          bio := none }).bio = deletedRec.bio
    ∧ (applyPatch deletedRec
        { (⟨some 9, some 9, some 9, some "x", some "y", some "z"⟩ : UserPatch) with
          profilePicture := none }).profilePicture = deletedRec.profilePicture :=
  C6_patch_frame okWorld
    (mkReq "PUT" [] (BodyJson.patch ⟨none, none, none, none, some "new bio", none⟩))
    "alice" aliceRec deletedRec ⟨some 9, some 9, some 9, some "x", some "y", some "z"⟩
    rfl rfl rfl rfl rfl rfl

/-- C7: an unparsable body against an existing record is answered 400
"invalid request body" and nothing is written: the table after the
invocation is exactly the table before. -/
theorem C7_invalid_body_no_write (w : World) (req : Request) (uname : String)
    (u : User)
    (hconn : w.connectErr = none) (huser : usernameClaim req = some uname)
    (hq : w.queryErr = none) (hfind : findByUsername w.table uname = some u)
    (hbody : req.body = BodyJson.invalid) :
    (update w req).outcome = Outcome.resp ⟨400, Body.text "invalid request body", []⟩
    ∧ (update w req).table = w.table := by
  have hfb : firstByUsername w uname = Except.ok u := by
    simp only [firstByUsername, hq, hfind]
  constructor
  · simp [update, hconn, huser, hfb, hbody]
  · simp [update, hconn, huser, hfb, hbody]

/-- Witness for C7 at the healthy fixture. -/
theorem C7_invalid_body_witness :
    (update okWorld (mkReq "PUT" [] BodyJson.invalid)).outcome
      = Outcome.resp ⟨400, Body.text "invalid request body", []⟩
    ∧ (update okWorld (mkReq "PUT" [] BodyJson.invalid)).table = okWorld.table :=
  C7_invalid_body_no_write okWorld (mkReq "PUT" [] BodyJson.invalid) "alice" aliceRec
    rfl rfl rfl rfl rfl

/-- Helper for C8: the attribute loop keeps an empty email accumulator
empty whenever every attribute named email carries an empty value. -/
theorem foldl_cogStep_email_empty (attrs : List Attr) (acc : String × String)
    (h : ∀ a ∈ attrs, a.name = "email" → a.value = "") (hacc : acc.1 = "") :
    (attrs.foldl cogStep acc).1 = "" := by
  induction attrs generalizing acc with
  | nil => simpa using hacc
  | cons a as ih =>
    simp only [List.foldl_cons]
    refine ih _ (fun b hb hn => h b (List.mem_cons_of_mem _ hb) hn) ?_
    by_cases he : a.name = "email"
    · simp [cogStep, he, h a (List.mem_cons_self _ _) he]
    · by_cases hn : a.name = "nickname" <;> simp [cogStep, he, hn, hacc]

/-- C8: when every provider attribute named email carries an empty value — in
particular when no email attribute is present at all — read answers 500
"could not find user email", and the outcome is the same for any table
contents and any query-failure state: the store is never consulted in the
decision. -/
theorem C8_missing_email (w : World) (req : Request) (uname tok : String)
    (attrs : List Attr) (table2 : List User) (qe2 : Option String)
    (hconn : w.connectErr = none) (huser : usernameClaim req = some uname)
    (hinit : w.initClientErr = none) (htok : tokenOf req = some tok)
    (hcog : w.getUser tok = Except.ok attrs)
    (hemail : ∀ a ∈ attrs, a.name = "email" → a.value = "") :
    (read w req).outcome = Outcome.resp ⟨500, Body.text "could not find user email", []⟩
    ∧ (read { w with table := table2, queryErr := qe2 } req).outcome
        = (read w req).outcome := by
  have hext : (extractEmailNickname attrs).1 = "" :=
    foldl_cogStep_email_empty attrs ("", "") hemail rfl
  have h1 : (read w req).outcome
      = Outcome.resp ⟨500, Body.text "could not find user email", []⟩ := by
    simp [read, hconn, huser, hinit, htok, hcog, hext]
  refine ⟨h1, ?_⟩
  rw [h1]
  simp [read, hconn, huser, hinit, htok, hcog, hext]

/-- Witness for C8: a provider response with no email attribute at all, one
fixture table holding alice and an alternative empty table with a failing
query. -/
theorem C8_missing_email_witness :
    (read
        ⟨none, [aliceRec], none, fun _ => Except.ok [⟨"nickname", "Al"⟩], none, none⟩
        authReq).outcome
      = Outcome.resp ⟨500, Body.text "could not find user email", []⟩
    ∧ (read
        { (⟨none, [aliceRec], none, fun _ => Except.ok [⟨"nickname", "Al"⟩], none, none⟩ : World) with
          table := [], queryErr := some "boom" }
        authReq).outcome
      = (read
          ⟨none, [aliceRec], none, fun _ => Except.ok [⟨"nickname", "Al"⟩], none, none⟩
          authReq).outcome :=
  C8_missing_email
    ⟨none, [aliceRec], none, fun _ => Except.ok [⟨"nickname", "Al"⟩], none, none⟩
    authReq "alice" "tok" [⟨"nickname", "Al"⟩] [] (some "boom")
    rfl rfl rfl rfl rfl (by decide)

/-- C9: any method other than GET and PUT is answered 405 with a message
naming the method; the table is untouched and neither the store nor the
identity provider is contacted. -/
theorem C9_method_not_allowed (w : World) (req : Request)
    (hg : req.method ≠ "GET") (hp : req.method ≠ "PUT") :
    handler w req =
      ⟨Outcome.resp ⟨405, Body.text ("HTTP method '" ++ req.method ++ "' not allowed"), []⟩,
       none, w.table, false, false⟩ := by
  simp only [handler, if_neg hg, if_neg hp]

/-- Witness for C9 with method DELETE. -/
theorem C9_method_not_allowed_witness :
    handler okWorld (mkReq "DELETE" [] BodyJson.invalid) =
      ⟨Outcome.resp
        ⟨405,
         Body.text ("HTTP method '" ++ (mkReq "DELETE" [] BodyJson.invalid).method ++ "' not allowed"),
         []⟩,
       none, okWorld.table, false, false⟩ :=
  C9_method_not_allowed okWorld (mkReq "DELETE" [] BodyJson.invalid)
    (by decide) (by decide)

/-- Helper for C10: read returns a nil Go error next to its response on
every path, the connection failure included. -/
theorem read_goErr_none (w : World) (req : Request) : (read w req).goErr = none := by
  unfold read
  repeat' split
  all_goals rfl

/-- Helper for C10: once the connection succeeds, update returns a nil Go
error on every remaining path. -/
theorem update_goErr_connect_ok (w : World) (req : Request)
    (h : w.connectErr = none) : (update w req).goErr = none := by
  simp only [update, h]
  repeat' split
  all_goals rfl

/-- C10: on a database connection failure, update returns the 500 response
together with a non-nil Go error to the runtime, whereas read returns a nil
error on every input — the same failure included — and update returns a nil
error on every input whose connection succeeds: the two operations expose
inconsistent error contracts on the same failure, and the connect path of
update is the sole non-nil-error return. -/
theorem C10_error_contract (w1 w2 w3 : World) (req1 req2 req3 : Request)
    (e : String)
    (h1 : w1.connectErr = some e) (h2 : w2.connectErr = none) :
    (update w1 req1).goErr = some (connectFailMsg e)
    ∧ (update w1 req1).outcome = Outcome.resp ⟨500, Body.text (connectFailMsg e), []⟩
    ∧ (read w3 req3).goErr = none
    ∧ (update w2 req2).goErr = none := by
  refine ⟨?_, ?_, read_goErr_none w3 req3, update_goErr_connect_ok w2 req2 h2⟩
  · simp [update, h1]
  · simp [update, h1]

/-- Witness for C10 at the failing-connection and healthy fixtures. -/
theorem C10_error_contract_witness :
    (update badConnWorld (mkReq "PUT" [] BodyJson.invalid)).goErr
        = some (connectFailMsg "dial tcp refused")
    ∧ (update badConnWorld (mkReq "PUT" [] BodyJson.invalid)).outcome
        = Outcome.resp ⟨500, Body.text (connectFailMsg "dial tcp refused"), []⟩
    ∧ (read badConnWorld (mkReq "GET" [] BodyJson.invalid)).goErr = none
    ∧ (update okWorld (mkReq "PUT" [] BodyJson.invalid)).goErr = none :=
  C10_error_contract badConnWorld okWorld badConnWorld
    (mkReq "PUT" [] BodyJson.invalid) (mkReq "PUT" [] BodyJson.invalid)
    (mkReq "GET" [] BodyJson.invalid) "dial tcp refused" rfl rfl

end UsersAPI
